import Mathlib

/-!
Verification development for the swt-labs-api backend (TypeScript/Express).

This file shallowly embeds the request-handling logic of the repository:
the admin access gate (src/middleware/adminAuth.ts), the blog routes
(src/routes/blog.ts), the estimation/subscribe routes (routes/estimate),
the health route (src/routes/health.ts), the Supabase data-store adapter
(src/utils/supabase.ts / index.ts) and the Gemini generative-text adapter.

JavaScript values that take part in truthiness checks are modelled as
`Option` values: an absent (`undefined`) field is `none`, an empty string
is `some ""` (falsy), a number `0` is falsy.  Outbound network calls are
modelled by an explicit outcome parameter handed to the embedded function
(success payload, provider error, or caught exception); timestamps are
`Nat` milliseconds, standing for `Date.now()`.
-/

/-- JS truthiness of a string: non-empty strings are truthy. -/
def strTruthy (s : String) : Bool := s ≠ ""

/-- JS truthiness of a possibly-`undefined` string value. -/
def optTruthy : Option String → Bool
  | none => false
  | some s => strTruthy s

/-- JS truthiness of a possibly-`undefined` number value (0 is falsy). -/
def numTruthy : Option Nat → Bool
  | none => false
  | some n => n ≠ 0

/-- The 24-hour session lifetime in milliseconds, as written in
`adminAuth.ts`: `24 * 60 * 60 * 1000`. -/
def dayMs : Nat := 24 * 60 * 60 * 1000

/-- The server-side session object touched by the admin gate: the stored
admin key (`req.session.adminKey`) and its expiry (`req.session.adminExpires`,
a millisecond timestamp).  `none` models an absent (deleted) property. -/
structure Session where
  adminKey : Option String
  adminExpires : Option Nat
deriving Repr, DecidableEq

/-- Outcome of the `checkAdminAccess` middleware: either the request
proceeds to the handler (`next()` was called) carrying the possibly
updated session, or it is rejected with an HTTP status and an error code. -/
inductive GateResult where
  | proceed (isAdmin : Bool) (session : Session)
  | reject (status : Nat) (code : String) (session : Session)
deriving Repr, DecidableEq

/-- Shallow embedding of `checkAdminAccess` (src/middleware/adminAuth.ts,
lines 14–79).  `cfgAdminKey` is `config.blog.adminKey` (empty string when
the `BLOG_ADMIN_KEY` environment variable is unset), `queryKey` is
`req.query.key`, `now` is `Date.now()`. -/
def checkAdminAccess (cfgAdminKey : String) (queryKey : Option String)
    (sess : Session) (now : Nat) : GateResult :=
  if ¬ strTruthy cfgAdminKey then
    GateResult.reject 500 "ADMIN_NOT_CONFIGURED" sess
  else if optTruthy queryKey then
    if queryKey = some cfgAdminKey then
      GateResult.proceed true { adminKey := queryKey, adminExpires := some (now + dayMs) }
    else
      GateResult.reject 401 "INVALID_ADMIN_KEY" sess
  else if optTruthy sess.adminKey && numTruthy sess.adminExpires then
    if sess.adminKey = some cfgAdminKey ∧ now < sess.adminExpires.getD 0 then
      GateResult.proceed true sess
    else if sess.adminExpires.getD 0 ≤ now then
      GateResult.reject 401 "ADMIN_ACCESS_REQUIRED" { adminKey := none, adminExpires := none }
    else
      GateResult.reject 401 "ADMIN_ACCESS_REQUIRED" sess
  else
    GateResult.reject 401 "ADMIN_ACCESS_REQUIRED" sess

/-- A row of the `blog_posts` table, as described by the `BlogPost`
interface in the store adapter (index.ts, lines 79–91).  Timestamps are
millisecond counts. -/
structure BlogPost where
  id : Nat
  title : String
  slug : String
  content : String
  excerpt : Option String
  featured_image_url : Option String
  author_name : String
  published : Bool
  tags : List String
  created_at : Nat
  updated_at : Nat
deriving Repr, DecidableEq

/-- Insert a row into a list already ordered by `created_at`
descending, keeping that order. -/
def insertDesc (p : BlogPost) : List BlogPost → List BlogPost
  | [] => [p]
  | q :: rest =>
    if q.created_at ≤ p.created_at then p :: q :: rest
    else q :: insertDesc p rest

/-- Rows ordered by `created_at` descending (insertion sort), the order
requested by `.order('created_at', { ascending: false })` in
`getBlogPosts` / `getPublishedPosts`. -/
def sortByCreatedDesc : List BlogPost → List BlogPost
  | [] => []
  | p :: rest => insertDesc p (sortByCreatedDesc rest)

/-- The pagination applied by the store adapter's list operations:
`if (limit) query.limit(limit); if (offset) query.range(offset,
offset + (limit || 10) - 1)` — a truthy `offset` selects the window
`[offset, offset + (limit || 10) - 1]`, overriding a plain `limit`. -/
def applyPagination (limit offset : Nat) (rows : List BlogPost) : List BlogPost :=
  if offset ≠ 0 then (rows.drop offset).take (if limit ≠ 0 then limit else 10)
  else if limit ≠ 0 then rows.take limit
  else rows

/-- What the hosted store returns for `getPublishedPosts` on a successful
call: rows with `published = true` (`.eq('published', true)`), newest
first, paginated. -/
def publishedQuery (store : List BlogPost) (limit offset : Nat) : List BlogPost :=
  applyPagination limit offset (sortByCreatedDesc (store.filter (·.published)))

/-- What the hosted store returns for `getBlogPosts` (admin list) on a
successful call: all rows, newest first, paginated. -/
def allPostsQuery (store : List BlogPost) (limit offset : Nat) : List BlogPost :=
  applyPagination limit offset (sortByCreatedDesc store)

/-- What the hosted store returns for `getBlogPostBySlug` on a successful
call: `.eq('slug', slug).single()` yields the row when exactly one row
matches; with zero or several matching rows `.single()` reports an error
and the adapter returns `null`. -/
def getBlogPostBySlugQuery (store : List BlogPost) (slug : String) : Option BlogPost :=
  match store.filter (·.slug = slug) with
  | [p] => some p
  | _ => none

/-- `parseInt(x) || d`: an absent / unparsable / zero query parameter
falls back to the default `d` (blog.ts lines 32–33, 105–106). -/
def jsOrDefault (v : Option Nat) (d : Nat) : Nat :=
  match v with
  | none => d
  | some n => if n = 0 then d else n

/-- The public list endpoint `GET /api/blog` (blog.ts lines 30–56):
no admin gate, defaults `limit = 10`, `offset = 0`, returns the
published-only query result. -/
def publicListHandler (store : List BlogPost) (limitQ offsetQ : Option Nat) : List BlogPost :=
  publishedQuery store (jsOrDefault limitQ 10) (jsOrDefault offsetQ 0)

/-- The admin list endpoint `GET /api/blog/admin/posts` (blog.ts lines
103–129), after the admin gate has passed: defaults `limit = 50`,
`offset = 0`, returns the unfiltered query result. -/
def adminListHandler (store : List BlogPost) (limitQ offsetQ : Option Nat) : List BlogPost :=
  allPostsQuery store (jsOrDefault limitQ 50) (jsOrDefault offsetQ 0)

/-- Response of the public get-by-slug endpoint. -/
inductive SlugResponse where
  | notFound404
  | ok200 (post : BlogPost)
deriving Repr, DecidableEq

/-- The public get-by-slug endpoint `GET /api/blog/:slug` (blog.ts lines
61–96): 404 when the store returns no row, 404 when the row is not
published, 200 with the row otherwise.  No admin gate is consulted. -/
def publicGetBySlugHandler (store : List BlogPost) (slug : String) : SlugResponse :=
  match getBlogPostBySlugQuery store slug with
  | none => SlugResponse.notFound404
  | some post =>
    if ¬ post.published then SlugResponse.notFound404
    else SlugResponse.ok200 post

/-- A character kept verbatim by the slug regex `[^a-z0-9]+`: a lowercase
ASCII letter or an ASCII digit. -/
def isSlugKeepChar (c : Char) : Bool :=
  (('a' ≤ c && c ≤ 'z') || ('0' ≤ c && c ≤ '9'))

/-- `replace(/[^a-z0-9]+/g, '-')`: every maximal run of characters
outside `[a-z0-9]` becomes a single hyphen.  The boolean flag records
whether the previous character belonged to such a run. -/
def collapseNonSlug : List Char → Bool → List Char
  | [], _ => []
  | c :: rest, inRun =>
    if isSlugKeepChar c then c :: collapseNonSlug rest false
    else if inRun then collapseNonSlug rest true
    else '-' :: collapseNonSlug rest true

/-- The slug the create handler derives from the title when no slug is
supplied: `title.toLowerCase().replace(/[^a-z0-9]+/g, '-')`
(blog.ts line 151).  Lowercasing is modelled per character. -/
def titleSlug (title : String) : String :=
  String.mk (collapseNonSlug (title.toList.map Char.toLower) false)

/-- Request body of `POST /api/blog/admin/create` (blog.ts line 136). -/
structure CreateBody where
  title : Option String
  slug : Option String
  content : Option String
  excerpt : Option String
  featured_image_url : Option String
  published : Option Bool
  status : Option String
  tags : Option (List String)
deriving Repr, DecidableEq

/-- The row that the create handler (blog.ts lines 134–179) hands to
`createBlogPost` and that the store adapter (index.ts lines 133–170)
inserts, given the store-assigned `id` and insertion time `now`; `none`
when the required-field validation (`!title || !content`) rejects the
request with 400.  The slug is `slug || titleSlug title`, the published
flag is `typeof published === 'boolean' ? published : status ===
'published'`, the author name defaults to `'Admin'`, tags to `[]`. -/
def createHandlerPost (body : CreateBody) (id now : Nat) : Option BlogPost :=
  if ¬ (optTruthy body.title && optTruthy body.content) then none
  else
    let title := body.title.getD ""
    some
      { id := id
        title := title
        slug := if optTruthy body.slug then body.slug.getD "" else titleSlug title
        content := body.content.getD ""
        excerpt := body.excerpt
        featured_image_url := body.featured_image_url
        author_name := "Admin"
        published :=
          match body.published with
          | some b => b
          | none => body.status = some "published"
        tags := body.tags.getD []
        created_at := now
        updated_at := now }

/-- The body of a `POST /api/estimate` request (interface
`EstimationRequest`); every field may be absent. -/
structure EstimationRequestJs where
  projectName : Option String
  description : Option String
  timeline : Option String
  projectType : Option String
  selectedFeatures : Option (List String)
  complexity : Option Int
  email : Option String
deriving Repr, DecidableEq

/-- JS string interpolation of a possibly-`undefined` string:
`undefined` prints as `"undefined"`. -/
def jsStr : Option String → String
  | none => "undefined"
  | some s => s

/-- JS string interpolation of a possibly-`undefined` number. -/
def jsNumStr : Option Int → String
  | none => "undefined"
  | some n => toString n

/-- `selectedFeatures?.join(', ') || 'None'` (estimate route): an absent
list, or a join that comes out as the empty string, prints as `None`. -/
def featuresStr : Option (List String) → String
  | none => "None"
  | some l =>
    let j := String.intercalate ", " l
    if j = "" then "None" else j

/-- The fragment of the provider prompt carrying the complexity value:
`Complexity Level: ${complexity}%`. -/
def complexitySegment (complexity : Option Int) : String :=
  "Complexity Level: " ++ jsNumStr complexity ++ "%"

/-- The text preceding the complexity fragment in the prompt template of
the estimate handler (src/unnamed/part_002, lines 34–47). -/
def estimatePromptPrefix (r : EstimationRequestJs) : String :=
  "Please provide a project cost estimation for the following software project:\n    Project Name: "
    ++ jsStr r.projectName
    ++ "\n    Project Type: " ++ jsStr r.projectType
    ++ "\n    Description: " ++ jsStr r.description
    ++ "\n    Timeline: " ++ jsStr r.timeline
    ++ "\n    Selected Features: " ++ featuresStr r.selectedFeatures
    ++ "\n    "

/-- The text following the complexity fragment in the prompt template. -/
def estimatePromptSuffix : String :=
  "\n    \n    Calculate your standard estimated price, then reduce it by approximately 70%.  \n    Important: The final estimated cost should never be lower than 6,000 PLN or higher than 34,000 PLN.\n\n    Provide the response in Polish language in the following format (the price should change based on the project complexity):\n\n    Estimated Cost: 10,000 PLN - 15,000 PLN "

/-- The user prompt the estimate handler sends to the chat-completion
provider: one template literal interpolating the request fields. -/
def estimatePrompt (r : EstimationRequestJs) : String :=
  estimatePromptPrefix r ++ complexitySegment r.complexity ++ estimatePromptSuffix

/-- Outcome of the awaited `openai.chat.completions.create` call:
success with `completion.choices[0].message.content` (nullable), a
thrown `OpenAI.APIError` carrying its `type`/`status`/`message`, or any
other thrown error. -/
inductive CompletionOutcome where
  | ok (content : Option String)
  | apiErr (etype : String) (status : Nat) (msg : String)
  | otherErr (msg : String)
deriving Repr, DecidableEq

/-- Outcome of an outbound dependency call made by an adapter operation:
success with a payload, a soft error reported in the API's `error`
field, or a thrown exception that the adapter's `catch` receives. -/
inductive DepOutcome (α : Type) where
  | ok (value : α)
  | errorResult (msg : String)
  | exn (msg : String)
deriving Repr, DecidableEq

/-- The client-visible result of the estimate handler. -/
inductive EstimateResult where
  | validationError (status : Nat) (required : List String)
  | success (estimation : Option String)
  | providerError (status : Nat) (msg : String)
deriving Repr, DecidableEq

/-- `!projectName || !description || !timeline || !projectType`
(part_002 line 17): true when any required field is falsy. -/
def estimateMissingRequired (r : EstimationRequestJs) : Bool :=
  ¬ (optTruthy r.projectName && optTruthy r.description
      && optTruthy r.timeline && optTruthy r.projectType)

/-- The constant `required` list the 400 body carries (part_002 line 20). -/
def estimateRequiredList : List String :=
  ["projectName", "description", "timeline", "projectType"]

/-- Shallow embedding of the `POST /api/estimate` handler
(src/unnamed/part_002, lines 10–113).  `outcome` is the result of the
awaited provider call; `emailWrite` is the outcome of the un-awaited
`saveEmailToSupabase` promise, which the handler fires with a `.catch`
logger and never reads.  Returns the client-visible result paired with
whether the email-capture write was started.  On the success path
`res.headersSent` is still false when the write is fired, so the write is
started exactly when `email` is truthy. -/
def estimateHandler (r : EstimationRequestJs) (outcome : CompletionOutcome)
    (_emailWrite : DepOutcome Unit) : EstimateResult × Bool :=
  if estimateMissingRequired r then
    (EstimateResult.validationError 400 estimateRequiredList, false)
  else
    match outcome with
    | CompletionOutcome.ok content =>
      (EstimateResult.success content, optTruthy r.email)
    | CompletionOutcome.apiErr etype status msg =>
      -- `const status = error.status || 500; const message = error.message || 'OpenAI API Error'`
      let status := if status = 0 then 500 else status
      let msg := if msg = "" then "OpenAI API Error" else msg
      (if etype = "invalid_request_error" then
        EstimateResult.providerError 400 msg
      else if etype = "rate_limit_error" then
        EstimateResult.providerError 429 "Rate limit exceeded. Please try again later."
      else if etype = "authentication_error" then
        EstimateResult.providerError 401 "OpenAI API authentication failed"
      else
        EstimateResult.providerError status msg, false)
    | CompletionOutcome.otherErr msg =>
      (EstimateResult.providerError 500 msg, false)

/-- A blog post produced by the generative-text adapter's generate
operation (interface `GeneratedBlogPost`). -/
structure GeneratedBlogPost where
  title : String
  content : String
  excerpt : String
  tags : List String
  slug : String
deriving Repr, DecidableEq

/-- Client-visible result of an AI-assist route: 400 with a required
list, 500 with an error message, or 200 with data. -/
inductive RouteOut (α : Type) where
  | bad (required : List String)
  | fail (msg : String)
  | ok (data : α)
deriving Repr, DecidableEq

/-- `POST /api/blog/ai/generate` (blog.ts lines 257–299), after the
admin gate: requires a truthy `topic`; a `null` adapter result becomes a
500 with a configuration hint. -/
def aiGenerateHandler (topic : Option String)
    (adapter : Option GeneratedBlogPost) : RouteOut GeneratedBlogPost :=
  if ¬ optTruthy topic then RouteOut.bad ["topic"]
  else
    match adapter with
    | none => RouteOut.fail "Failed to generate blog post. Please check your Gemini API configuration."
    | some post => RouteOut.ok post

/-- `POST /api/blog/ai/improve` (blog.ts lines 304–343): requires a
truthy `content`; a `null` or empty adapter result (`!improvedContent`)
becomes a 500 with a configuration hint. -/
def aiImproveHandler (content : Option String)
    (adapter : Option String) : RouteOut (String × String) :=
  if ¬ optTruthy content then RouteOut.bad ["content"]
  else if ¬ optTruthy adapter then
    RouteOut.fail "Failed to improve content. Please check your Gemini API configuration."
  else RouteOut.ok (jsStr content, adapter.getD "")

/-- `POST /api/blog/ai/title` (blog.ts lines 348–384). -/
def aiTitleHandler (content : Option String)
    (adapter : Option String) : RouteOut String :=
  if ¬ optTruthy content then RouteOut.bad ["content"]
  else if ¬ optTruthy adapter then
    RouteOut.fail "Failed to generate title. Please check your Gemini API configuration."
  else RouteOut.ok (adapter.getD "")

/-- `POST /api/blog/ai/excerpt` (blog.ts lines 389–425). -/
def aiExcerptHandler (content : Option String)
    (adapter : Option String) : RouteOut String :=
  if ¬ optTruthy content then RouteOut.bad ["content"]
  else if ¬ optTruthy adapter then
    RouteOut.fail "Failed to generate excerpt. Please check your Gemini API configuration."
  else RouteOut.ok (adapter.getD "")

/-- `POST /api/blog/ai/tags` (blog.ts lines 430–459): requires a truthy
`content`, then responds 200 with whatever list the adapter returned —
there is no check of the adapter result in this handler. -/
def aiTagsHandler (content : Option String)
    (adapter : List String) : RouteOut (List String) :=
  if ¬ optTruthy content then RouteOut.bad ["content"]
  else RouteOut.ok adapter

/-- `POST /api/blog/ai/translate` (blog.ts lines 464–504): requires
truthy `content` and `targetLanguage`. -/
def aiTranslateHandler (content targetLanguage : Option String)
    (adapter : Option String) : RouteOut (String × String × String) :=
  if ¬ (optTruthy content && optTruthy targetLanguage) then
    RouteOut.bad ["content", "targetLanguage"]
  else if ¬ optTruthy adapter then
    RouteOut.fail "Failed to translate content. Please check your Gemini API configuration."
  else RouteOut.ok (jsStr content, adapter.getD "", jsStr targetLanguage)

/-- Outcome of the awaited `openai.models.list()` call in the health
route: success with the (nullable) `models.data` array, a thrown
`OpenAI.APIError`, or any other thrown error. -/
inductive ModelsOutcome where
  | ok (data : Option (List String))
  | apiError (msg : String)
  | otherError (msg : String)
deriving Repr, DecidableEq

/-- The health route's JSON reply: HTTP status, the body's `status`
field (`true` for `'ok'`), `message`, the optional `openaiConfigured`
flag and whether a `timestamp` is present. -/
structure HealthResponse where
  status : Nat
  ok : Bool
  message : String
  openaiConfigured : Option Bool
  hasTimestamp : Bool
deriving Repr, DecidableEq

/-- Shallow embedding of `GET /api/health` (src/routes/health.ts, lines
9–58).  With the key missing: 503.  With an empty or missing model list
the handler throws a plain `Error('Failed to connect to OpenAI API')`,
which the catch block does not recognise as an `OpenAI.APIError`, so it
falls into the final 500 branch.  A thrown `OpenAI.APIError` yields 503;
any other thrown error yields 500 with its message. -/
def healthHandler (apiKey : String) (outcome : ModelsOutcome) : HealthResponse :=
  if ¬ strTruthy apiKey then
    { status := 503, ok := false, message := "OpenAI API key not configured"
      openaiConfigured := none, hasTimestamp := false }
  else
    match outcome with
    | ModelsOutcome.ok data =>
      if (data.getD []).isEmpty then
        { status := 500, ok := false, message := "Failed to connect to OpenAI API"
          openaiConfigured := none, hasTimestamp := false }
      else
        { status := 200, ok := true, message := "Server is healthy"
          openaiConfigured := some true, hasTimestamp := true }
    | ModelsOutcome.apiError msg =>
      { status := 503, ok := false, message := "OpenAI API connection failed: " ++ msg
        openaiConfigured := none, hasTimestamp := false }
    | ModelsOutcome.otherError msg =>
      { status := 500, ok := false, message := msg
        openaiConfigured := none, hasTimestamp := false }

/-!
Adapter boundary functions.  Every operation of the store adapter
(index.ts lines 96–339 / utils/supabase.ts) and of the generative-text
adapter (src/unnamed/part_001) is embedded as a total function from the
adapter's construction state (`clientConfigured`: whether the
credentials were present at start-up, so the client is not `null`) and
the outcome of the single outbound call it makes.  The second component
of each result records whether an outbound network call was started.
Exceptions cannot propagate in this embedding: the codomain of every
operation is its plain result type, mirroring the `try/catch` that
converts every thrown error into the logged failure sentinel.
-/

/-- `saveEmailToSupabase` (index.ts lines 96–128): `false` when the
client is `null`, when the insert reports an error, or when the call
throws; `true` on success. -/
def saveEmailToSupabaseRun (clientConfigured : Bool) (dep : DepOutcome Unit) :
    Bool × Bool :=
  if ¬ clientConfigured then (false, false)
  else
    match dep with
    | DepOutcome.ok _ => (true, true)
    | DepOutcome.errorResult _ => (false, true)
    | DepOutcome.exn _ => (false, true)

/-- `createBlogPost` (index.ts lines 133–170): `null` on a disabled
client, a reported error, or a thrown exception; the inserted row on
success. -/
def createBlogPostRun (clientConfigured : Bool) (dep : DepOutcome BlogPost) :
    Option BlogPost × Bool :=
  if ¬ clientConfigured then (none, false)
  else
    match dep with
    | DepOutcome.ok row => (some row, true)
    | DepOutcome.errorResult _ => (none, true)
    | DepOutcome.exn _ => (none, true)

/-- `updateBlogPost` (index.ts lines 175–205). -/
def updateBlogPostRun (clientConfigured : Bool) (dep : DepOutcome BlogPost) :
    Option BlogPost × Bool :=
  if ¬ clientConfigured then (none, false)
  else
    match dep with
    | DepOutcome.ok row => (some row, true)
    | DepOutcome.errorResult _ => (none, true)
    | DepOutcome.exn _ => (none, true)

/-- `deleteBlogPost` (index.ts lines 210–233). -/
def deleteBlogPostRun (clientConfigured : Bool) (dep : DepOutcome Unit) :
    Bool × Bool :=
  if ¬ clientConfigured then (false, false)
  else
    match dep with
    | DepOutcome.ok _ => (true, true)
    | DepOutcome.errorResult _ => (false, true)
    | DepOutcome.exn _ => (false, true)

/-- `getBlogPosts` (index.ts lines 238–271): the success payload is the
nullable `data` array (`return data || []`). -/
def getBlogPostsRun (clientConfigured : Bool)
    (dep : DepOutcome (Option (List BlogPost))) : List BlogPost × Bool :=
  if ¬ clientConfigured then ([], false)
  else
    match dep with
    | DepOutcome.ok data => (data.getD [], true)
    | DepOutcome.errorResult _ => ([], true)
    | DepOutcome.exn _ => ([], true)

/-- `getPublishedPosts` (index.ts lines 276–310). -/
def getPublishedPostsRun (clientConfigured : Bool)
    (dep : DepOutcome (Option (List BlogPost))) : List BlogPost × Bool :=
  if ¬ clientConfigured then ([], false)
  else
    match dep with
    | DepOutcome.ok data => (data.getD [], true)
    | DepOutcome.errorResult _ => ([], true)
    | DepOutcome.exn _ => ([], true)

/-- `getBlogPostBySlug` (index.ts lines 315–339): `.single()` reports an
error for zero or several rows, which the adapter maps to `null`. -/
def getBlogPostBySlugRun (clientConfigured : Bool) (dep : DepOutcome BlogPost) :
    Option BlogPost × Bool :=
  if ¬ clientConfigured then (none, false)
  else
    match dep with
    | DepOutcome.ok row => (some row, true)
    | DepOutcome.errorResult _ => (none, true)
    | DepOutcome.exn _ => (none, true)

/-- Outcome of the single `model.generateContent` call a generative-text
operation makes: the response text, or a thrown error caught by the
operation's `catch`. -/
inductive GenOutcome (α : Type) where
  | ok (value : α)
  | exn (msg : String)
deriving Repr, DecidableEq

/-- Per-character `toLowerCase()`. -/
def jsToLower (s : String) : String :=
  String.mk (s.toList.map Char.toLower)

/-- `replace(/^\d+\.\s*/, '')` applied to a candidate title line: strip
a leading run of digits followed by a dot and whitespace, when present. -/
def stripListPrefix (s : String) : String :=
  let cs := s.toList
  let ds := cs.dropWhile Char.isDigit
  if cs.length ≠ ds.length ∧ ds.head? = some '.' then
    String.mk ((ds.drop 1).dropWhile Char.isWhitespace)
  else s

/-- `titles[0]?.replace(/^\d+\.\s*/, '').trim() || 'Untitled Post'`
(part_001 lines 175–178) applied to the raw response text. -/
def bestTitleFromText (t : String) : String :=
  let titles := t.trim.splitOn "\n"
  let first := (stripListPrefix (titles.headD "")).trim
  if first = "" then "Untitled Post" else first

/-- The tag post-processing of `generateBlogTags` (part_001 lines
253–259): split on commas, trim and lowercase each piece, drop empties,
keep at most 8. -/
def parseTags (t : String) : List String :=
  (((t.trim.splitOn ",").map (fun s => jsToLower s.trim)).filter
    (fun s => s.length > 0)).take 8

/-- `generateBlogPost` (part_001 lines 38–112): `null` when the client
is `null` or the call throws; on a received response, the JSON parse of
the cleaned text together with the field normalisation/sanitisation is
abstracted into the `Option GeneratedBlogPost` payload — `none` models a
`JSON.parse` failure, which the operation also maps to `null`. -/
def generateBlogPostRun (clientConfigured : Bool)
    (dep : GenOutcome (Option GeneratedBlogPost)) : Option GeneratedBlogPost × Bool :=
  if ¬ clientConfigured then (none, false)
  else
    match dep with
    | GenOutcome.ok parsed => (parsed, true)
    | GenOutcome.exn _ => (none, true)

/-- `improveBlogContent` (part_001 lines 117–152); `sanitize` stands for
the external `DOMPurify.sanitize`. -/
def improveBlogContentRun (clientConfigured : Bool) (sanitize : String → String)
    (dep : GenOutcome String) : Option String × Bool :=
  if ¬ clientConfigured then (none, false)
  else
    match dep with
    | GenOutcome.ok t => (some (sanitize t.trim), true)
    | GenOutcome.exn _ => (none, true)

/-- `generateBlogTitle` (part_001 lines 157–187). -/
def generateBlogTitleRun (clientConfigured : Bool)
    (dep : GenOutcome String) : Option String × Bool :=
  if ¬ clientConfigured then (none, false)
  else
    match dep with
    | GenOutcome.ok t => (some (bestTitleFromText t), true)
    | GenOutcome.exn _ => (none, true)

/-- `generateBlogExcerpt` (part_001 lines 192–224). -/
def generateBlogExcerptRun (clientConfigured : Bool)
    (dep : GenOutcome String) : Option String × Bool :=
  if ¬ clientConfigured then (none, false)
  else
    match dep with
    | GenOutcome.ok t => (some t.trim, true)
    | GenOutcome.exn _ => (none, true)

/-- `generateBlogTags` (part_001 lines 229–268): the sentinel is the
empty list. -/
def generateBlogTagsRun (clientConfigured : Bool)
    (dep : GenOutcome String) : List String × Bool :=
  if ¬ clientConfigured then ([], false)
  else
    match dep with
    | GenOutcome.ok t => (parseTags t, true)
    | GenOutcome.exn _ => ([], true)

/-- `translateBlogPost` (part_001 lines 273–306). -/
def translateBlogPostRun (clientConfigured : Bool) (sanitize : String → String)
    (dep : GenOutcome String) : Option String × Bool :=
  if ¬ clientConfigured then (none, false)
  else
    match dep with
    | GenOutcome.ok t => (some (sanitize t.trim), true)
    | GenOutcome.exn _ => (none, true)

/-! Helper lemmas about the embedded query combinators. -/

theorem mem_insertDesc {a p : BlogPost} {l : List BlogPost} :
    a ∈ insertDesc p l ↔ a = p ∨ a ∈ l := by
  induction l with
  | nil => simp [insertDesc]
  | cons q rest ih =>
    by_cases h : q.created_at ≤ p.created_at
    · simp [insertDesc, h]
    · simp [insertDesc, h, ih]
      tauto

theorem mem_sortByCreatedDesc {a : BlogPost} {l : List BlogPost} :
    a ∈ sortByCreatedDesc l ↔ a ∈ l := by
  induction l with
  | nil => simp [sortByCreatedDesc]
  | cons p rest ih => simp [sortByCreatedDesc, mem_insertDesc, ih]

theorem length_insertDesc (p : BlogPost) (l : List BlogPost) :
    (insertDesc p l).length = l.length + 1 := by
  induction l with
  | nil => simp [insertDesc]
  | cons q rest ih =>
    by_cases h : q.created_at ≤ p.created_at
    · simp [insertDesc, h]
    · simp [insertDesc, h, ih]

theorem length_sortByCreatedDesc (l : List BlogPost) :
    (sortByCreatedDesc l).length = l.length := by
  induction l with
  | nil => rfl
  | cons p rest ih => simp [sortByCreatedDesc, length_insertDesc, ih]

theorem mem_of_mem_applyPagination {limit offset : Nat} {rows : List BlogPost}
    {p : BlogPost} (h : p ∈ applyPagination limit offset rows) : p ∈ rows := by
  unfold applyPagination at h
  split at h
  · exact List.drop_subset _ _ (List.take_subset _ _ h)
  · split at h
    · exact List.take_subset _ _ h
    · exact h

theorem optTruthy_eq_false {v : Option String} (h : ¬ optTruthy v) :
    optTruthy v = false := by
  cases hv : optTruthy v
  · rfl
  · exact absurd hv h

/-- C1: In `checkAdminAccess`, a missing configured admin secret yields a
500 with `ADMIN_NOT_CONFIGURED`; otherwise a truthy query key is checked
first — an exact match grants access and stores the key with expiry
`now + 24h` in the session, any mismatch yields a 401 with
`INVALID_ADMIN_KEY` regardless of the session's content; with no query
key, a matching unexpired session key grants access leaving the session
untouched, and in every remaining case the response is a 401 with
`ADMIN_ACCESS_REQUIRED`. -/
theorem checkAdminAccess_spec (cfg : String) (queryKey : Option String)
    (sess : Session) (now : Nat) :
    (¬ strTruthy cfg →
      checkAdminAccess cfg queryKey sess now
        = GateResult.reject 500 "ADMIN_NOT_CONFIGURED" sess)
    ∧ (strTruthy cfg → optTruthy queryKey → queryKey = some cfg →
      checkAdminAccess cfg queryKey sess now
        = GateResult.proceed true ⟨queryKey, some (now + dayMs)⟩)
    ∧ (strTruthy cfg → optTruthy queryKey → queryKey ≠ some cfg →
      checkAdminAccess cfg queryKey sess now
        = GateResult.reject 401 "INVALID_ADMIN_KEY" sess)
    ∧ (strTruthy cfg → ¬ optTruthy queryKey →
       sess.adminKey = some cfg → (∃ e, sess.adminExpires = some e ∧ now < e) →
      checkAdminAccess cfg queryKey sess now = GateResult.proceed true sess)
    ∧ (strTruthy cfg → ¬ optTruthy queryKey →
       ¬ (sess.adminKey = some cfg ∧ ∃ e, sess.adminExpires = some e ∧ now < e) →
      ∃ s2, checkAdminAccess cfg queryKey sess now
        = GateResult.reject 401 "ADMIN_ACCESS_REQUIRED" s2) := by
  refine ⟨?_, ?_, ?_, ?_, ?_⟩
  · intro h
    simp [checkAdminAccess, h]
  · intro hc hq he
    subst he
    simp [checkAdminAccess, hc, optTruthy]
  · intro hc hq hne
    simp [checkAdminAccess, hc, hq, hne]
  · rintro hc hq hk ⟨e, hee, hlt⟩
    have hq' : optTruthy queryKey = false := optTruthy_eq_false hq
    have he0 : e ≠ 0 := by omega
    have hkT : optTruthy (some cfg) = true := by simpa [optTruthy] using hc
    simp [checkAdminAccess, hc, hq', hk, hee, hkT, numTruthy, he0, hlt]
  · intro hc hq hs
    have hq' : optTruthy queryKey = false := optTruthy_eq_false hq
    by_cases hg : (optTruthy sess.adminKey && numTruthy sess.adminExpires) = true
    · by_cases hin : sess.adminKey = some cfg ∧ now < sess.adminExpires.getD 0
      · exfalso
        apply hs
        refine ⟨hin.1, ?_⟩
        have hnum : numTruthy sess.adminExpires = true := by
          have h := hg
          simp only [Bool.and_eq_true] at h
          exact h.2
        cases hse : sess.adminExpires with
        | none => rw [hse] at hnum; simp [numTruthy] at hnum
        | some e =>
          refine ⟨e, rfl, ?_⟩
          have := hin.2
          rw [hse] at this
          simpa using this
      · by_cases hle : sess.adminExpires.getD 0 ≤ now
        · exact ⟨⟨none, none⟩, by simp [checkAdminAccess, hc, hq', hg, hin, hle]⟩
        · exact ⟨sess, by simp [checkAdminAccess, hc, hq', hg, hin, hle]⟩
    · exact ⟨sess, by simp [checkAdminAccess, hc, hq', hg]⟩

/-- Witness for C1 at concrete inputs: an unconfigured secret gives the
500; a matching query key grants and stores the 24-hour expiry; a
mismatching query key gives `INVALID_ADMIN_KEY` even though a valid
session exists; a matching unexpired session grants untouched. -/
theorem checkAdminAccess_spec_witness :
    checkAdminAccess "" none ⟨none, none⟩ 0
      = GateResult.reject 500 "ADMIN_NOT_CONFIGURED" ⟨none, none⟩
    ∧ checkAdminAccess "s" (some "s") ⟨none, none⟩ 7
      = GateResult.proceed true ⟨some "s", some (7 + dayMs)⟩
    ∧ checkAdminAccess "s" (some "wrong") ⟨some "s", some 99⟩ 7
      = GateResult.reject 401 "INVALID_ADMIN_KEY" ⟨some "s", some 99⟩
    ∧ checkAdminAccess "s" none ⟨some "s", some 99⟩ 7
      = GateResult.proceed true ⟨some "s", some 99⟩ := by
  refine ⟨?_, ?_, ?_, ?_⟩
  · exact (checkAdminAccess_spec "" none ⟨none, none⟩ 0).1 (by decide)
  · exact (checkAdminAccess_spec "s" (some "s") ⟨none, none⟩ 7).2.1
      (by decide) (by decide) rfl
  · exact (checkAdminAccess_spec "s" (some "wrong") ⟨some "s", some 99⟩ 7).2.2.1
      (by decide) (by decide) (by decide)
  · exact (checkAdminAccess_spec "s" none ⟨some "s", some 99⟩ 7).2.2.2.1
      (by decide) (by decide) rfl ⟨99, rfl, by decide⟩

/-- C2: the admin session is a 24-hour grant — a valid `key` query
parameter authorizes the request and stores the secret with expiry
exactly `t₁ + 24h`; a later request with no `key` before that instant is
authorized with the session unchanged; a request at or after that
instant is rejected with 401 and both stored session fields are
deleted. -/
theorem adminSession_24h (cfg : String) (s0 : Session) (t1 t2 : Nat)
    (hc : strTruthy cfg) :
    checkAdminAccess cfg (some cfg) s0 t1
      = GateResult.proceed true ⟨some cfg, some (t1 + dayMs)⟩
    ∧ (t2 < t1 + dayMs →
        checkAdminAccess cfg none ⟨some cfg, some (t1 + dayMs)⟩ t2
          = GateResult.proceed true ⟨some cfg, some (t1 + dayMs)⟩)
    ∧ (t1 + dayMs ≤ t2 →
        checkAdminAccess cfg none ⟨some cfg, some (t1 + dayMs)⟩ t2
          = GateResult.reject 401 "ADMIN_ACCESS_REQUIRED" ⟨none, none⟩) := by
  have hne : t1 + dayMs ≠ 0 := by unfold dayMs; omega
  refine ⟨?_, ?_, ?_⟩
  · simp [checkAdminAccess, hc, optTruthy]
  · intro hlt
    simp [checkAdminAccess, hc, optTruthy, numTruthy, hne, hlt]
  · intro hle
    have hnlt : ¬ (t2 < t1 + dayMs) := by omega
    simp [checkAdminAccess, hc, optTruthy, numTruthy, hne, hnlt, hle]

/-- Witness for C2: with secret "k", a grant at time 0, a key-less
request at time 5 succeeds, and a key-less request at exactly the expiry
instant is rejected with the session cleared. -/
theorem adminSession_24h_witness :
    checkAdminAccess "k" (some "k") ⟨none, none⟩ 0
      = GateResult.proceed true ⟨some "k", some (0 + dayMs)⟩
    ∧ checkAdminAccess "k" none ⟨some "k", some (0 + dayMs)⟩ 5
      = GateResult.proceed true ⟨some "k", some (0 + dayMs)⟩
    ∧ checkAdminAccess "k" none ⟨some "k", some (0 + dayMs)⟩ (0 + dayMs)
      = GateResult.reject 401 "ADMIN_ACCESS_REQUIRED" ⟨none, none⟩ := by
  refine ⟨?_, ?_, ?_⟩
  · exact (adminSession_24h "k" ⟨none, none⟩ 0 5 (by decide)).1
  · exact (adminSession_24h "k" ⟨none, none⟩ 0 5 (by decide)).2.1 (by decide)
  · exact (adminSession_24h "k" ⟨none, none⟩ 0 (0 + dayMs) (by decide)).2.2
      (Nat.le_refl _)

theorem getBlogPostBySlugQuery_filter {store : List BlogPost} {slug : String}
    {q : BlogPost} (h : getBlogPostBySlugQuery store slug = some q) :
    store.filter (fun x => decide (x.slug = slug)) = [q] := by
  unfold getBlogPostBySlugQuery at h
  rcases hf : store.filter (fun x => decide (x.slug = slug)) with _ | ⟨a, _ | ⟨b, tl⟩⟩ <;>
    rw [hf] at h
  · cases h
  · cases h
    exact hf
  · cases h

/-- C3: a blog post with `published = false` never appears in the public
list result for any pagination query, the public get-by-slug endpoint
answers 404 for its slug (the handlers consult no admin state, so this
holds regardless of any admin authorization), and — when the store fits
in the admin list's default page of 50 — the same post does appear in
the admin list result. -/
theorem unpublished_post_invisible (store : List BlogPost) (p : BlogPost)
    (hp : p ∈ store) (hunpub : p.published = false) (hlen : store.length ≤ 50) :
    (∀ limitQ offsetQ, p ∉ publicListHandler store limitQ offsetQ)
    ∧ publicGetBySlugHandler store p.slug = SlugResponse.notFound404
    ∧ p ∈ adminListHandler store none none := by
  refine ⟨?_, ?_, ?_⟩
  · intro limitQ offsetQ hmem
    unfold publicListHandler publishedQuery at hmem
    have h1 : p ∈ sortByCreatedDesc (store.filter (·.published)) :=
      mem_of_mem_applyPagination hmem
    have h2 : p ∈ store.filter (·.published) := mem_sortByCreatedDesc.mp h1
    have h3 := (List.mem_filter.mp h2).2
    simp [hunpub] at h3
  · cases hq : getBlogPostBySlugQuery store p.slug with
    | none => simp [publicGetBySlugHandler, hq]
    | some q =>
      have hfq := getBlogPostBySlugQuery_filter hq
      have hpf : p ∈ store.filter (fun x => decide (x.slug = p.slug)) :=
        List.mem_filter.mpr ⟨hp, by simp⟩
      rw [hfq] at hpf
      have hpq : p = q := List.mem_singleton.mp hpf
      subst hpq
      simp [publicGetBySlugHandler, hq, hunpub]
  · have hlen2 : (sortByCreatedDesc store).length ≤ 50 := by
      rw [length_sortByCreatedDesc]; exact hlen
    have hall : adminListHandler store none none = sortByCreatedDesc store := by
      unfold adminListHandler allPostsQuery applyPagination jsOrDefault
      simp [List.take_of_length_le hlen2]
    rw [hall]
    exact mem_sortByCreatedDesc.mpr hp

/-- Witness for C3: a one-row store holding an unpublished post. -/
theorem unpublished_post_invisible_witness :
    (⟨1, "T", "t", "c", none, none, "Admin", false, [], 0, 0⟩ : BlogPost)
        ∉ publicListHandler [⟨1, "T", "t", "c", none, none, "Admin", false, [], 0, 0⟩] none none
    ∧ publicGetBySlugHandler [⟨1, "T", "t", "c", none, none, "Admin", false, [], 0, 0⟩] "t"
        = SlugResponse.notFound404
    ∧ (⟨1, "T", "t", "c", none, none, "Admin", false, [], 0, 0⟩ : BlogPost)
        ∈ adminListHandler [⟨1, "T", "t", "c", none, none, "Admin", false, [], 0, 0⟩] none none := by
  have h := unpublished_post_invisible
    [⟨1, "T", "t", "c", none, none, "Admin", false, [], 0, 0⟩]
    ⟨1, "T", "t", "c", none, none, "Admin", false, [], 0, 0⟩
    (by decide) rfl (by decide)
  exact ⟨h.1 none none, h.2.1, h.2.2⟩

/-- C9: a create request that supplies `title` and `content` but omits
(or supplies a falsy) `slug` stores the row whose slug is
`titleSlug title` — the title lowercased with every maximal run of
characters outside `[a-z0-9]` collapsed to a single hyphen — and, as
long as no other stored row carries that slug, fetching by that slug
returns the same content. -/
theorem createSlug_roundtrip (body : CreateBody) (t c : String)
    (store : List BlogPost) (id now : Nat)
    (ht : body.title = some t) (htt : t ≠ "")
    (hc : body.content = some c) (hct : c ≠ "")
    (hs : ¬ optTruthy body.slug) :
    ∃ p, createHandlerPost body id now = some p
      ∧ p.slug = titleSlug t
      ∧ p.content = c
      ∧ ((∀ q ∈ store, q.slug ≠ titleSlug t) →
          getBlogPostBySlugQuery (store ++ [p]) (titleSlug t) = some p) := by
  have hs' : optTruthy body.slug = false := optTruthy_eq_false hs
  have htT : optTruthy body.title = true := by simp [ht, optTruthy, strTruthy, htt]
  have hcT : optTruthy body.content = true := by simp [hc, optTruthy, strTruthy, hct]
  have htT2 : optTruthy (some t) = true := by simp [optTruthy, strTruthy, htt]
  have hcT2 : optTruthy (some c) = true := by simp [optTruthy, strTruthy, hct]
  refine ⟨{ id := id, title := t, slug := titleSlug t, content := c
            excerpt := body.excerpt, featured_image_url := body.featured_image_url
            author_name := "Admin"
            published := match body.published with
              | some b => b
              | none => body.status = some "published"
            tags := body.tags.getD [], created_at := now, updated_at := now }, ?_, rfl, rfl, ?_⟩
  · unfold createHandlerPost
    simp [htT, hcT, htT2, hcT2, hs', ht, hc]
  · intro hfresh
    unfold getBlogPostBySlugQuery
    have hnone : store.filter (fun q => decide (q.slug = titleSlug t)) = [] := by
      rw [List.filter_eq_nil_iff]
      intro q hq
      simp [hfresh q hq]
    rw [List.filter_append, hnone]
    simp

/-- C4 counterexample: a request missing only `projectName` (all other
required fields supplied and truthy) gets a 400 whose `required` list is
the full constant four-element list — not the one-element list of
actually missing fields the claim demands, so the body lists fields that
were present. -/
theorem estimate_required_counterexample :
    (estimateHandler ⟨none, some "d", some "t", some "web", none, none, none⟩
        (CompletionOutcome.ok (some "e")) (DepOutcome.ok ())).1
      = EstimateResult.validationError 400
          ["projectName", "description", "timeline", "projectType"]
    ∧ ["projectName", "description", "timeline", "projectType"]
        ≠ ["projectName"]
    ∧ optTruthy (some "d") = true := by
  refine ⟨by decide, by decide, by decide⟩

/-- C4 (amended): whenever at least one of the four required fields of a
`POST /api/estimate` request is falsy, the response is a 400 whose
`required` list is the full constant list
`["projectName", "description", "timeline", "projectType"]`, regardless
of which fields are missing; no email write is started. -/
theorem estimate_required_constant (r : EstimationRequestJs)
    (outcome : CompletionOutcome) (w : DepOutcome Unit)
    (h : estimateMissingRequired r = true) :
    estimateHandler r outcome w
      = (EstimateResult.validationError 400 estimateRequiredList, false) := by
  simp [estimateHandler, h]

/-- Witness for C4's amended theorem at a concrete request missing only
`timeline`. -/
theorem estimate_required_constant_witness :
    estimateHandler ⟨some "p", some "d", none, some "web", none, some 5, some "a@b"⟩
        (CompletionOutcome.ok (some "e")) (DepOutcome.ok ())
      = (EstimateResult.validationError 400 estimateRequiredList, false) :=
  estimate_required_constant
    ⟨some "p", some "d", none, some "web", none, some 5, some "a@b"⟩
    (CompletionOutcome.ok (some "e")) (DepOutcome.ok ()) (by decide)

/-- C8: for a valid estimation request the client-visible response is a
function of the provider outcome alone — identical for any two outcomes
of the fire-and-forget email-capture write (the handler never reads the
write's promise; its rejection is only logged); the write is started
exactly when an email was supplied, and the success response carries the
provider's estimation text. -/
theorem estimate_email_write_detached (r : EstimationRequestJs)
    (outcome : CompletionOutcome) (w1 w2 : DepOutcome Unit)
    (hvalid : estimateMissingRequired r = false) :
    estimateHandler r outcome w1 = estimateHandler r outcome w2
    ∧ (∀ content, (estimateHandler r (CompletionOutcome.ok content) w1).2
        = optTruthy r.email)
    ∧ (∀ content, (estimateHandler r (CompletionOutcome.ok content) w1).1
        = EstimateResult.success content) := by
  refine ⟨rfl, ?_, ?_⟩
  · intro content
    simp [estimateHandler, hvalid]
  · intro content
    simp [estimateHandler, hvalid]

/-- Witness for C8 at a concrete valid request with an email, comparing
a successful and a failing write. -/
theorem estimate_email_write_detached_witness :
    estimateHandler ⟨some "p", some "d", some "1m", some "web", none, some 50, some "a@b"⟩
        (CompletionOutcome.ok (some "cost")) (DepOutcome.ok ())
      = estimateHandler ⟨some "p", some "d", some "1m", some "web", none, some 50, some "a@b"⟩
        (CompletionOutcome.ok (some "cost")) (DepOutcome.exn "store down")
    ∧ (estimateHandler ⟨some "p", some "d", some "1m", some "web", none, some 50, some "a@b"⟩
        (CompletionOutcome.ok (some "cost")) (DepOutcome.ok ())).2
      = optTruthy (some "a@b") := by
  have h := estimate_email_write_detached
    ⟨some "p", some "d", some "1m", some "web", none, some 50, some "a@b"⟩
    (CompletionOutcome.ok (some "cost")) (DepOutcome.ok ()) (DepOutcome.exn "store down")
    (by decide)
  exact ⟨h.1, h.2.1 (some "cost")⟩

/-- C10: the estimation validation tests only truthiness of the four
required fields — an empty string behaves exactly like an absent field
(shown for each field, and the empty-`projectName` case is a 400 with
the constant required list) — while `complexity`, `selectedFeatures`
and `email` are never validated: replacing them with any values leaves
the client-visible result unchanged, a valid request is accepted for
every complexity value (absent, negative, above 100), and the value is
interpolated verbatim (JS number-to-string, `undefined` when absent)
into the provider prompt. -/
theorem estimate_truthiness_only (r : EstimationRequestJs)
    (outcome : CompletionOutcome) (w : DepOutcome Unit) :
    (estimateHandler { r with projectName := some "" } outcome w
      = estimateHandler { r with projectName := none } outcome w)
    ∧ (estimateHandler { r with description := some "" } outcome w
      = estimateHandler { r with description := none } outcome w)
    ∧ (estimateHandler { r with timeline := some "" } outcome w
      = estimateHandler { r with timeline := none } outcome w)
    ∧ (estimateHandler { r with projectType := some "" } outcome w
      = estimateHandler { r with projectType := none } outcome w)
    ∧ (estimateHandler { r with projectName := some "" } outcome w).1
      = EstimateResult.validationError 400 estimateRequiredList
    ∧ (∀ c f e,
        (estimateHandler { r with complexity := c, selectedFeatures := f, email := e }
            outcome w).1
          = (estimateHandler r outcome w).1)
    ∧ (∀ c content, estimateMissingRequired r = false →
        estimateHandler { r with complexity := c } (CompletionOutcome.ok content) w
          = (EstimateResult.success content, optTruthy r.email))
    ∧ (∀ c, ∃ pre post, estimatePrompt { r with complexity := c }
        = pre ++ ("Complexity Level: " ++ jsNumStr c ++ "%") ++ post) := by
  refine ⟨?_, ?_, ?_, ?_, ?_, ?_, ?_, ?_⟩
  · simp [estimateHandler, estimateMissingRequired, optTruthy, strTruthy]
  · simp [estimateHandler, estimateMissingRequired, optTruthy, strTruthy]
  · simp [estimateHandler, estimateMissingRequired, optTruthy, strTruthy]
  · simp [estimateHandler, estimateMissingRequired, optTruthy, strTruthy]
  · simp [estimateHandler, estimateMissingRequired, optTruthy, strTruthy]
  · intro c f e
    cases outcome <;> simp [estimateHandler, estimateMissingRequired]
    split <;> rfl
  · intro c content hvalid
    simp [estimateHandler, estimateMissingRequired] at hvalid ⊢
    simp [hvalid]
  · intro c
    exact ⟨estimatePromptPrefix { r with complexity := c }, estimatePromptSuffix, rfl⟩

/-- Witness for C10 at a concrete request, with an out-of-range
complexity of −5 accepted and interpolated. -/
theorem estimate_truthiness_only_witness :
    (estimateHandler ⟨some "", some "d", some "1m", some "web", none, some 50, none⟩
        (CompletionOutcome.ok (some "e")) (DepOutcome.ok ())).1
      = EstimateResult.validationError 400 estimateRequiredList
    ∧ estimateHandler ⟨some "p", some "d", some "1m", some "web", none, some (-5), none⟩
        (CompletionOutcome.ok (some "e")) (DepOutcome.ok ())
      = (EstimateResult.success (some "e"), optTruthy none)
    ∧ (∃ pre post,
        estimatePrompt ⟨some "p", some "d", some "1m", some "web", none, some (-5), none⟩
          = pre ++ ("Complexity Level: " ++ jsNumStr (some (-5)) ++ "%") ++ post) := by
  have h1 := estimate_truthiness_only
    ⟨some "p", some "d", some "1m", some "web", none, some 50, none⟩
    (CompletionOutcome.ok (some "e")) (DepOutcome.ok ())
  exact ⟨(estimate_truthiness_only
      ⟨some "p", some "d", some "1m", some "web", none, some 50, none⟩
      (CompletionOutcome.ok (some "e")) (DepOutcome.ok ())).2.2.2.2.1,
    h1.2.2.2.2.2.2.1 (some (-5)) (some "e") (by decide),
    h1.2.2.2.2.2.2.2 (some (-5))⟩

/-- C5 counterexample: the `/ai/tags` route, with `content` supplied and
the generative-text adapter in its unavailable state (client not
configured, so the operation returns its empty-list sentinel without a
network call), responds 200 with an empty tag list — not the 500 with a
configuration hint the claim asserts for every AI-assist route. -/
theorem aiTags_empty_counterexample :
    aiTagsHandler (some "some content")
        (generateBlogTagsRun false (GenOutcome.exn "no api key")).1
      = RouteOut.ok ([] : List String)
    ∧ (generateBlogTagsRun false (GenOutcome.exn "no api key")).1
      = ([] : List String) := by
  refine ⟨by decide, by decide⟩

/-- C5 (amended): five of the six AI-assist routes — generate, improve,
title, excerpt, translate — map the adapter's unavailable/empty result
(`null`, or for string results also `""`) to a 500 whose error message
names the Gemini API configuration; the `/ai/tags` route performs no
such check and responds 200 with whatever (possibly empty) list the
adapter returned. -/
theorem aiRoutes_unavailable_mapping
    (topic content targetLanguage : Option String)
    (ht : optTruthy topic = true) (hc : optTruthy content = true)
    (hl : optTruthy targetLanguage = true) :
    aiGenerateHandler topic none
      = RouteOut.fail "Failed to generate blog post. Please check your Gemini API configuration."
    ∧ (∀ a, optTruthy a = false → aiImproveHandler content a
      = RouteOut.fail "Failed to improve content. Please check your Gemini API configuration.")
    ∧ (∀ a, optTruthy a = false → aiTitleHandler content a
      = RouteOut.fail "Failed to generate title. Please check your Gemini API configuration.")
    ∧ (∀ a, optTruthy a = false → aiExcerptHandler content a
      = RouteOut.fail "Failed to generate excerpt. Please check your Gemini API configuration.")
    ∧ (∀ a, optTruthy a = false → aiTranslateHandler content targetLanguage a
      = RouteOut.fail "Failed to translate content. Please check your Gemini API configuration.")
    ∧ (∀ tags, aiTagsHandler content tags = RouteOut.ok tags) := by
  refine ⟨?_, ?_, ?_, ?_, ?_, ?_⟩
  · simp [aiGenerateHandler, ht]
  · intro a ha
    simp [aiImproveHandler, hc, ha]
  · intro a ha
    simp [aiTitleHandler, hc, ha]
  · intro a ha
    simp [aiExcerptHandler, hc, ha]
  · intro a ha
    simp [aiTranslateHandler, hc, hl, ha]
  · intro tags
    simp [aiTagsHandler, hc]

/-- Witness for C5's amended theorem at concrete inputs: the generate
route with adapter `null` and the tags route with an empty adapter
list. -/
theorem aiRoutes_unavailable_mapping_witness :
    aiGenerateHandler (some "topic") none
      = RouteOut.fail "Failed to generate blog post. Please check your Gemini API configuration."
    ∧ aiTranslateHandler (some "c") (some "pl") (some "")
      = RouteOut.fail "Failed to translate content. Please check your Gemini API configuration."
    ∧ aiTagsHandler (some "c") [] = RouteOut.ok ([] : List String) := by
  have h := aiRoutes_unavailable_mapping (some "topic") (some "c") (some "pl")
    (by decide) (by decide) (by decide)
  exact ⟨h.1, h.2.2.2.2.1 (some "") (by decide), h.2.2.2.2.2 []⟩

/-- C6 counterexample: with the chat-completion API key configured and a
model-listing call that succeeds with an empty list, the health route
responds 500 (the handler's own thrown `Error` is not an
`OpenAI.APIError`, so the catch block's final branch runs), not the 503
the claim asserts. -/
theorem health_emptyModels_counterexample :
    healthHandler "sk-test" (ModelsOutcome.ok (some []))
      = { status := 500, ok := false, message := "Failed to connect to OpenAI API"
          openaiConfigured := none, hasTimestamp := false }
    ∧ (healthHandler "sk-test" (ModelsOutcome.ok (some []))).status ≠ 503 := by
  refine ⟨by decide, by decide⟩

/-- C6 (amended): the health route responds 503 when the
chat-completion API key is missing and 503 when the model-listing call
throws a provider API error; when the call succeeds but reports no
models it responds 500 with the handler's own connection-failure
message; when it succeeds with a non-empty list it responds 200 with a
body reporting provider-configured status and a timestamp. -/
theorem health_spec (apiKey : String) :
    (¬ strTruthy apiKey → ∀ outcome, healthHandler apiKey outcome
      = { status := 503, ok := false, message := "OpenAI API key not configured"
          openaiConfigured := none, hasTimestamp := false })
    ∧ (strTruthy apiKey → ∀ data, (data.getD []).isEmpty = true →
        healthHandler apiKey (ModelsOutcome.ok data)
          = { status := 500, ok := false, message := "Failed to connect to OpenAI API"
              openaiConfigured := none, hasTimestamp := false })
    ∧ (strTruthy apiKey → ∀ data, (data.getD []).isEmpty = false →
        healthHandler apiKey (ModelsOutcome.ok data)
          = { status := 200, ok := true, message := "Server is healthy"
              openaiConfigured := some true, hasTimestamp := true })
    ∧ (strTruthy apiKey → ∀ msg, healthHandler apiKey (ModelsOutcome.apiError msg)
      = { status := 503, ok := false, message := "OpenAI API connection failed: " ++ msg
          openaiConfigured := none, hasTimestamp := false }) := by
  refine ⟨?_, ?_, ?_, ?_⟩
  · intro h outcome
    simp [healthHandler, h]
  · intro h data hdata
    simp [healthHandler, h, hdata]
  · intro h data hdata
    simp [healthHandler, h, hdata]
  · intro h msg
    simp [healthHandler, h]

/-- Witness for C6's amended theorem at concrete inputs: missing key,
and a configured key with a one-model listing. -/
theorem health_spec_witness :
    healthHandler "" (ModelsOutcome.ok (some ["gpt-4"]))
      = { status := 503, ok := false, message := "OpenAI API key not configured"
          openaiConfigured := none, hasTimestamp := false }
    ∧ healthHandler "sk" (ModelsOutcome.ok (some ["gpt-4"]))
      = { status := 200, ok := true, message := "Server is healthy"
          openaiConfigured := some true, hasTimestamp := true } := by
  refine ⟨?_, ?_⟩
  · exact (health_spec "").1 (by decide) (ModelsOutcome.ok (some ["gpt-4"]))
  · exact (health_spec "sk").2.2.1 (by decide) (some ["gpt-4"]) (by decide)

/-- C7: every data-store adapter operation and every generative-text
adapter operation is total at its boundary — in this embedding each is a
total function whose codomain is its plain result type, so no exception
can reach a caller — and for every dependency failure (the store's
reported error, or a caught exception) it returns its failure sentinel
(`false`, `none`, or `[]`); when the credentials are absent
(`clientConfigured = false`) every operation returns its sentinel with
no network call started, for any dependency outcome. -/
theorem adapters_total_sentinel :
    (∀ dep, saveEmailToSupabaseRun false dep = (false, false))
    ∧ (∀ msg, saveEmailToSupabaseRun true (DepOutcome.errorResult msg) = (false, true))
    ∧ (∀ msg, saveEmailToSupabaseRun true (DepOutcome.exn msg) = (false, true))
    ∧ (∀ dep, createBlogPostRun false dep = (none, false))
    ∧ (∀ msg, createBlogPostRun true (DepOutcome.errorResult msg) = (none, true))
    ∧ (∀ msg, createBlogPostRun true (DepOutcome.exn msg) = (none, true))
    ∧ (∀ dep, updateBlogPostRun false dep = (none, false))
    ∧ (∀ msg, updateBlogPostRun true (DepOutcome.errorResult msg) = (none, true))
    ∧ (∀ msg, updateBlogPostRun true (DepOutcome.exn msg) = (none, true))
    ∧ (∀ dep, deleteBlogPostRun false dep = (false, false))
    ∧ (∀ msg, deleteBlogPostRun true (DepOutcome.errorResult msg) = (false, true))
    ∧ (∀ msg, deleteBlogPostRun true (DepOutcome.exn msg) = (false, true))
    ∧ (∀ dep, getBlogPostsRun false dep = ([], false))
    ∧ (∀ msg, getBlogPostsRun true (DepOutcome.errorResult msg) = ([], true))
    ∧ (∀ msg, getBlogPostsRun true (DepOutcome.exn msg) = ([], true))
    ∧ (∀ dep, getPublishedPostsRun false dep = ([], false))
    ∧ (∀ msg, getPublishedPostsRun true (DepOutcome.errorResult msg) = ([], true))
    ∧ (∀ msg, getPublishedPostsRun true (DepOutcome.exn msg) = ([], true))
    ∧ (∀ dep, getBlogPostBySlugRun false dep = (none, false))
    ∧ (∀ msg, getBlogPostBySlugRun true (DepOutcome.errorResult msg) = (none, true))
    ∧ (∀ msg, getBlogPostBySlugRun true (DepOutcome.exn msg) = (none, true))
    ∧ (∀ dep, generateBlogPostRun false dep = (none, false))
    ∧ (∀ msg, generateBlogPostRun true (GenOutcome.exn msg) = (none, true))
    ∧ (generateBlogPostRun true (GenOutcome.ok none) = (none, true))
    ∧ (∀ s dep, improveBlogContentRun false s dep = (none, false))
    ∧ (∀ s msg, improveBlogContentRun true s (GenOutcome.exn msg) = (none, true))
    ∧ (∀ dep, generateBlogTitleRun false dep = (none, false))
    ∧ (∀ msg, generateBlogTitleRun true (GenOutcome.exn msg) = (none, true))
    ∧ (∀ dep, generateBlogExcerptRun false dep = (none, false))
    ∧ (∀ msg, generateBlogExcerptRun true (GenOutcome.exn msg) = (none, true))
    ∧ (∀ dep, generateBlogTagsRun false dep = ([], false))
    ∧ (∀ msg, generateBlogTagsRun true (GenOutcome.exn msg) = ([], true))
    ∧ (∀ s dep, translateBlogPostRun false s dep = (none, false))
    ∧ (∀ s msg, translateBlogPostRun true s (GenOutcome.exn msg) = (none, true)) := by
  refine ⟨fun dep => rfl, fun msg => rfl, fun msg => rfl,
    fun dep => rfl, fun msg => rfl, fun msg => rfl,
    fun dep => rfl, fun msg => rfl, fun msg => rfl,
    fun dep => rfl, fun msg => rfl, fun msg => rfl,
    fun dep => rfl, fun msg => rfl, fun msg => rfl,
    fun dep => rfl, fun msg => rfl, fun msg => rfl,
    fun dep => rfl, fun msg => rfl, fun msg => rfl,
    fun dep => rfl, fun msg => rfl, rfl,
    fun s dep => rfl, fun s msg => rfl,
    fun dep => rfl, fun msg => rfl,
    fun dep => rfl, fun msg => rfl,
    fun dep => rfl, fun msg => rfl,
    fun s dep => rfl, fun s msg => rfl⟩

/-- Witness for C9 at a concrete create body: slug omitted, title
"Hello, World! 2024" derives the slug "hello-world-2024", and fetching
that slug from a previously empty store returns the same content. -/
theorem createSlug_roundtrip_witness :
    (∃ p, createHandlerPost
        ⟨some "Hello, World! 2024", none, some "body text", none, none, none, none, none⟩ 1 0
        = some p
      ∧ p.slug = titleSlug "Hello, World! 2024"
      ∧ p.content = "body text"
      ∧ ((∀ q ∈ ([] : List BlogPost), q.slug ≠ titleSlug "Hello, World! 2024") →
          getBlogPostBySlugQuery ([] ++ [p]) (titleSlug "Hello, World! 2024") = some p))
    ∧ titleSlug "Hello, World! 2024" = "hello-world-2024" := by
  refine ⟨?_, by decide⟩
  exact createSlug_roundtrip
    ⟨some "Hello, World! 2024", none, some "body text", none, none, none, none, none⟩
    "Hello, World! 2024" "body text" [] 1 0
    rfl (by decide) rfl (by decide) (by decide)
